import Mathlib

/-!
Verification development for the AlterLab Python SDK (`src/alterlab/client.py`).

The client is shallowly embedded: JSON documents are modelled by the `Json`
inductive, payloads and response bodies by association lists, and the
stateful retry / polling loops by executable functions that return explicit
traces (requests issued, sleeps performed, final outcome).  Machine floats
(`retry_delay`, `poll_interval`, elapsed wall-clock times) are modelled by
rationals; the `Retry-After` HTTP header is modelled by its numeric value
(`Option Nat`, `none` when the header is absent), abstracting Python string
to number conversion, which is out of scope per the specification.
-/

/-- JSON values, the loosely typed documents exchanged with the API.
Objects are association lists in source order; numbers are integers
(all numeric constants the client manipulates are integers). -/
inductive Json where
  | null
  | bool (b : Bool)
  | num (n : Int)
  | str (s : String)
  | arr (xs : List Json)
  | obj (kvs : List (String × Json))

/-- First value bound to key `k`, modelling Python dict lookup
(`data[k]` / membership); inputs built from JSON have unique keys. -/
def jlookup (k : String) : List (String × Json) → Option Json
  | [] => none
  | (k2, v) :: rest => if k2 = k then some v else jlookup k rest

/-- Python `data.get(k, d)`: the bound value, or the default `d`. -/
def jgetD (k : String) (data : List (String × Json)) (d : Json) : Json :=
  match jlookup k data with
  | some v => v
  | none => d

/-- Python truthiness of a JSON value (`None`, `False`, `0`, `""`, `[]`,
`\x7b\x7d` are falsy; everything else is truthy). -/
def pyTruthy : Json → Bool
  | .null => false
  | .bool b => b
  | .num n => n != 0
  | .str s => s ≠ ""
  | .arr [] => false
  | .arr (_ :: _) => true
  | .obj [] => false
  | .obj (_ :: _) => true

/-- Python truthiness of `data.get(k)` (absent key yields `None`, falsy). -/
def pyTruthyOpt : Option Json → Bool
  | none => false
  | some j => pyTruthy j

/-- Python `j == s` for a string literal `s`: true exactly when `j` is that
string (values of other runtime types never equal a string). -/
def jsonEqStr (j : Json) (s : String) : Bool :=
  match j with
  | .str s2 => s2 = s
  | _ => false

mutual

/-- `true` when no `null` occurs anywhere in the value (recursing through
arrays and objects). -/
def Json.nullFree : Json → Bool
  | .null => false
  | .bool _ => true
  | .num _ => true
  | .str _ => true
  | .arr xs => Json.listNullFree xs
  | .obj kvs => Json.objNullFree kvs

/-- `Json.nullFree` over the elements of an array. -/
def Json.listNullFree : List Json → Bool
  | [] => true
  | x :: xs => Json.nullFree x && Json.listNullFree xs

/-- `Json.nullFree` over the values of an object. -/
def Json.objNullFree : List (String × Json) → Bool
  | [] => true
  | kv :: kvs => Json.nullFree kv.2 && Json.objNullFree kvs

end

/-- Python `str()` of a JSON scalar, used when a `job_id` value is
interpolated into messages and URL paths; the rendering of container
values is abstracted (no claim exercises it). -/
def Json.pyStr : Json → String
  | .str s => s
  | .num n => toString n
  | .bool true => "True"
  | .bool false => "False"
  | .null => "None"
  | _ => "object"

/-- An optional string rendered as a JSON value (`None` becomes `null`),
as Python json serialization does for `Optional[str]` dataclass fields. -/
def optStr : Option String → Json
  | some s => .str s
  | none => .null

/-- `AdvancedOptions` dataclass (`client.py` lines 133-190): advanced
scraping options with their dataclass defaults. -/
structure AdvancedOptions where
  render_js : Bool := false
  screenshot : Bool := false
  markdown : Bool := false
  generate_pdf : Bool := false
  ocr : Bool := false
  use_proxy : Bool := false
  use_own_proxy : Bool := false
  use_system_proxy : Bool := false
  proxy_integration_id : Option String := none
  proxy_country : Option String := none
  wait_condition : String := "networkidle"
  remove_cookie_banners : Bool := true

/-- `AdvancedOptions.to_dict`: emits every field unconditionally, the two
optional proxy fields as `null` when unset. -/
def AdvancedOptions.to_dict (a : AdvancedOptions) : Json :=
  Json.obj
    [("render_js", .bool a.render_js),
     ("screenshot", .bool a.screenshot),
     ("markdown", .bool a.markdown),
     ("generate_pdf", .bool a.generate_pdf),
     ("ocr", .bool a.ocr),
     ("use_proxy", .bool a.use_proxy),
     ("use_own_proxy", .bool a.use_own_proxy),
     ("use_system_proxy", .bool a.use_system_proxy),
     ("proxy_integration_id", optStr a.proxy_integration_id),
     ("proxy_country", optStr a.proxy_country),
     ("wait_condition", .str a.wait_condition),
     ("remove_cookie_banners", .bool a.remove_cookie_banners)]

/-- `CostControls` dataclass (`client.py` lines 193-225). -/
structure CostControls where
  max_tier : Option String := none
  prefer_cost : Bool := false
  prefer_speed : Bool := false
  fail_fast : Bool := false

/-- `CostControls.to_dict`: three flags always; `max_tier` only when truthy
(`if self.max_tier:`, so a `None` or empty tier string is omitted). -/
def CostControls.to_dict (c : CostControls) : Json :=
  Json.obj
    ([("prefer_cost", .bool c.prefer_cost),
      ("prefer_speed", .bool c.prefer_speed),
      ("fail_fast", .bool c.fail_fast)]
     ++ (match c.max_tier with
         | some t => if t = "" then [] else [("max_tier", Json.str t)]
         | none => []))

/-- The keyword arguments of `AlterLab._build_scrape_payload`
(`client.py` lines 629-655) with their Python defaults.  `mode`,
`wait_until` and the extraction profile are runtime strings (`Literal`
annotations are typing only); `extraction_schema` is a caller-supplied
JSON object. -/
structure ScrapeOptions where
  mode : String := "auto"
  sync : Bool := true
  advanced : Option AdvancedOptions := none
  cost_controls : Option CostControls := none
  cache : Bool := false
  cache_ttl : Option Int := none
  force_refresh : Bool := false
  include_raw_html : Bool := false
  timeout : Option Int := none
  formats : Option (List String) := none
  extraction_schema : Option (List (String × Json)) := none
  extraction_prompt : Option String := none
  extraction_profile : Option String := none
  evidence : Bool := false
  promote_schema_org : Bool := true
  wait_for : Option String := none
  screenshot : Bool := false
  wait_until : String := "networkidle"
  enable_scroll : Option Bool := none
  pdf_format : String := "markdown"
  ocr_language : String := "eng"

/-- Python `timeout or self.timeout` (`0` and `None` both fall back to the
client default). -/
def pyOrInt : Option Int → Int → Int
  | some v, d => if v ≠ 0 then v else d
  | none, d => d

/-- `AlterLab._build_scrape_payload` (`client.py` lines 629-706): the
always-present keys followed by each conditional key in source order.
Conditions are Python truthiness tests except `cache_ttl` and
`enable_scroll`, which test `is not None`. -/
def build_scrape_payload (selfTimeout : Int) (url : String) (o : ScrapeOptions) :
    List (String × Json) :=
  [("url", Json.str url),
   ("mode", Json.str o.mode),
   ("sync", Json.bool o.sync),
   ("cache", Json.bool o.cache),
   ("force_refresh", Json.bool o.force_refresh),
   ("include_raw_html", Json.bool o.include_raw_html),
   ("timeout", Json.num (pyOrInt o.timeout selfTimeout)),
   ("evidence", Json.bool o.evidence),
   ("promote_schema_org", Json.bool o.promote_schema_org),
   ("wait_until", Json.str o.wait_until)]
  ++ (match o.cache_ttl with
      | some t => [("cache_ttl", Json.num t)]
      | none => [])
  ++ (match o.advanced with
      | some a => [("advanced", a.to_dict)]
      | none => [])
  ++ (match o.cost_controls with
      | some c => [("cost_controls", c.to_dict)]
      | none => [])
  ++ (match o.formats with
      | some (f :: fs) => [("formats", Json.arr ((f :: fs).map Json.str))]
      | _ => [])
  ++ (match o.extraction_schema with
      | some (kv :: kvs) => [("extraction_schema", Json.obj (kv :: kvs))]
      | _ => [])
  ++ (match o.extraction_prompt with
      | some s => if s = "" then [] else [("extraction_prompt", Json.str s)]
      | none => [])
  ++ (match o.extraction_profile with
      | some s => if s = "" then [] else [("extraction_profile", Json.str s)]
      | none => [])
  ++ (match o.wait_for with
      | some s => if s = "" then [] else [("wait_for", Json.str s)]
      | none => [])
  ++ (if o.screenshot then [("screenshot", Json.bool true)] else [])
  ++ (match o.enable_scroll with
      | some b => [("enable_scroll", Json.bool b)]
      | none => [])
  ++ (if o.mode = "pdf" then [("pdf_format", Json.str o.pdf_format)] else [])
  ++ (if o.mode = "ocr" then [("ocr_language", Json.str o.ocr_language)] else [])

/-- An HTTP response as the retry loop observes it: the status code, the
`Retry-After` header modelled by its numeric value (`none` when absent),
the raw body text, and `detail`, modelling the message the error handler
extracts (`data.get("detail", response.text)` over the parsed JSON body,
falling back to the raw text; JSON deserialization itself is out of
scope per the specification). -/
structure Response where
  status : Nat
  retryAfter : Option Nat := none
  text : String := ""
  detail : String := ""

/-- The SDK exception taxonomy (`client.py` lines 56-125).
`alterLabError` is the base `AlterLabError` used for network failures and
the retries-exhausted fallback; `scrapeError` carries the message as a
JSON value because `wait_for_job` passes the server-provided `error`
field through unchanged. -/
inductive SdkError where
  | authenticationError (status : Nat) (message : String)
  | insufficientCreditsError (status : Nat) (message : String)
  | validationError (status : Nat) (message : String)
  | rateLimitError (message : String) (retryAfter : Option Nat)
  | apiError (status : Nat) (message : String)
  | scrapeError (status : Nat) (message : Json) (code : Option String)
  | timeoutError (message : String)
  | alterLabError (message : String)

/-- `AlterLab._handle_error_response` (`client.py` lines 472-494): the
status-code to typed-exception mapping; `none` when the status is below
400 (the Python function falls through without raising). -/
def handle_error_response (r : Response) : Option SdkError :=
  if r.status = 401 then some (.authenticationError 401 r.detail)
  else if r.status = 402 then some (.insufficientCreditsError 402 r.detail)
  else if r.status = 422 then some (.validationError 422 r.detail)
  else if r.status = 429 then some (.rateLimitError r.detail r.retryAfter)
  else if 400 ≤ r.status then some (.apiError r.status r.detail)
  else none

/-- What one attempt of the retry loop observes: an HTTP response, or a
transport-level failure (`httpx.TimeoutException` / `httpx.NetworkError`). -/
inductive AttemptOutcome where
  | httpResponse (r : Response)
  | networkError (msg : String)

/-- The sleep taken after a retryable response: the `Retry-After` value
when the header is present (Python string truthiness; the header is
modelled post-conversion), else `retry_delay * 2 ** attempt`. -/
def retrySleep (retryDelay : ℚ) (attempt : Nat) (r : Response) : ℚ :=
  match r.retryAfter with
  | some ra => (ra : ℚ)
  | none => retryDelay * 2 ^ attempt

/-- Observable trace of one `_request_with_retry` call: how many requests
were issued, the sleep durations in order, and the result (the returned
response, or the exception raised). -/
structure RetryTrace where
  requests : Nat
  sleeps : List ℚ
  outcome : Except SdkError Response

/-- The loop body of `AlterLab._request_with_retry` (`client.py` lines
506-537), one constructor step per iteration of
`for attempt in range(self.max_retries)`.  `attempts` is the mocked
environment giving each attempt's outcome; `remaining` counts the loop
iterations left (`maxRetries - attempt`); `lastError` is the `last_error`
local.  A 4xx response other than 429 raises the typed error from
`_handle_error_response` at once; a 429 or 5xx response records a generic
`AlterLabAPIError` built from the body text, sleeps, and continues; a
network error records the base error and sleeps only when further
attempts remain; exhaustion raises `last_error` or the fallback. -/
def request_with_retry_go (retryDelay : ℚ) (maxRetries : Nat)
    (attempts : Nat → AttemptOutcome) (attempt : Nat)
    (lastError : Option SdkError) : Nat → RetryTrace
  | 0 => ⟨0, [], .error (lastError.getD (.alterLabError "Request failed after retries"))⟩
  | remaining + 1 =>
    match attempts attempt with
    | .httpResponse r =>
      if 400 ≤ r.status then
        match (if 400 ≤ r.status ∧ r.status < 500 ∧ r.status ≠ 429
               then handle_error_response r else none) with
        | some e => ⟨1, [], .error e⟩
        | none =>
          let t := request_with_retry_go retryDelay maxRetries attempts (attempt + 1)
            (some (.apiError r.status r.text)) remaining
          ⟨t.requests + 1, retrySleep retryDelay attempt r :: t.sleeps, t.outcome⟩
      else ⟨1, [], .ok r⟩
    | .networkError msg =>
      let le := some (SdkError.alterLabError ("Network error: " ++ msg))
      if attempt < maxRetries - 1 then
        let t := request_with_retry_go retryDelay maxRetries attempts (attempt + 1) le remaining
        ⟨t.requests + 1, retryDelay * 2 ^ attempt :: t.sleeps, t.outcome⟩
      else
        let t := request_with_retry_go retryDelay maxRetries attempts (attempt + 1) le remaining
        ⟨t.requests + 1, t.sleeps, t.outcome⟩

/-- `AlterLab._request_with_retry`, entered at attempt 0 with no recorded
error and the full retry budget. -/
def request_with_retry (maxRetries : Nat) (retryDelay : ℚ)
    (attempts : Nat → AttemptOutcome) : RetryTrace :=
  request_with_retry_go retryDelay maxRetries attempts 0 none maxRetries

/-- `TierEscalation` dataclass: one escalation attempt as the parser builds
it.  Fields hold the JSON values the server sent (the parser does not
validate runtime types); the two optional fields default to `null`
(Python `None`). -/
structure TierEscalation where
  tier : Json
  result : Json
  credits : Json
  duration_ms : Json := .null
  error : Json := .null

/-- `BillingDetails` dataclass as the parser builds it. -/
structure BillingDetails where
  total_credits : Json
  tier_used : Json
  escalations : List TierEscalation := []
  savings : Json := .num 0
  optimization_suggestion : Json := .null
  byop_applied : Json := .bool false
  byop_discount_percent : Json := .null
  original_cost_microcents : Json := .null
  final_cost_microcents : Json := .null

/-- `ScrapeResult` dataclass (`client.py` lines 263-330) with its dataclass
defaults.  Data-derived fields hold the JSON values verbatim; `billing`
is `none` exactly when the dataclass default `None` is used (the parser
always supplies one; the async-placeholder construction does not). -/
structure ScrapeResult where
  url : Json
  status_code : Json
  content : Json
  title : Json := .null
  author : Json := .null
  published_at : Json := .null
  metadata : Json := .obj []
  headers : Json := .obj []
  cached : Json := .bool false
  cached_at : Json := .null
  expires_at : Json := .null
  response_time_ms : Json := .num 0
  size_bytes : Json := .num 0
  raw_html : Json := .null
  screenshot_url : Json := .null
  pdf_url : Json := .null
  ocr_results : Json := .null
  proxy_used : Json := .null
  filtered_content : Json := .null
  billing : Option BillingDetails := none
  extraction_method : Json := .str "algorithmic"
  method_details : Json := .null

/-- One element of the escalations sequence
(`client.py` lines 587-593): `e.get("tier", "1")`, `e.get("result",
"success")`, `e.get("credits", 0)` and the two optional fields; a
non-dict element raises `AttributeError` on `e.get`. -/
def parse_escalation : Json → Except String TierEscalation
  | Json.obj e =>
    .ok { tier := jgetD "tier" e (Json.str "1"),
          result := jgetD "result" e (Json.str "success"),
          credits := jgetD "credits" e (Json.num 0),
          duration_ms := jgetD "duration_ms" e Json.null,
          error := jgetD "error" e Json.null }
  | _ => .error "AttributeError"

/-- The list comprehension over a JSON array: each element parsed in
source order, the first failure propagating. -/
def parse_escalation_list : List Json → Except String (List TierEscalation)
  | [] => .ok []
  | e :: rest =>
    match parse_escalation e with
    | .error m => .error m
    | .ok t =>
      match parse_escalation_list rest with
      | .error m => .error m
      | .ok ts => .ok (t :: ts)

/-- `for e in billing_data.get("escalations", [])`: element-wise parse of a
JSON array in source order.  A non-iterable value raises `TypeError`; a
non-empty string or dict iterates scalar items whose `.get` raises
`AttributeError`, while the degenerate empty string or dict iterates
nothing. -/
def parse_escalations : Json → Except String (List TierEscalation)
  | Json.arr es => parse_escalation_list es
  | Json.str s => if s = "" then .ok [] else .error "AttributeError"
  | Json.obj [] => .ok []
  | Json.obj (_ :: _) => .error "AttributeError"
  | _ => .error "TypeError"

/-- `AlterLab._parse_scrape_response` (`client.py` lines 580-627): builds
`BillingDetails` from `data.get("billing", \x7b\x7d)` — whose `.get`
calls raise `AttributeError` when that value is not a dict — then the
`ScrapeResult`, each field via `data.get` with the documented default. -/
def parse_scrape_response (data : List (String × Json)) : Except String ScrapeResult :=
  match jgetD "billing" data (Json.obj []) with
  | Json.obj bd =>
    match parse_escalations (jgetD "escalations" bd (Json.arr [])) with
    | .error m => .error m
    | .ok escs =>
      .ok { url := jgetD "url" data (Json.str ""),
            status_code := jgetD "status_code" data (Json.num 200),
            content := jgetD "content" data (Json.str ""),
            title := jgetD "title" data Json.null,
            author := jgetD "author" data Json.null,
            published_at := jgetD "published_at" data Json.null,
            metadata := jgetD "metadata" data (Json.obj []),
            headers := jgetD "headers" data (Json.obj []),
            cached := jgetD "cached" data (Json.bool false),
            cached_at := jgetD "cached_at" data Json.null,
            expires_at := jgetD "expires_at" data Json.null,
            response_time_ms := jgetD "response_time_ms" data (Json.num 0),
            size_bytes := jgetD "size_bytes" data (Json.num 0),
            raw_html := jgetD "raw_html" data Json.null,
            screenshot_url := jgetD "screenshot_url" data Json.null,
            pdf_url := jgetD "pdf_url" data Json.null,
            ocr_results := jgetD "ocr_results" data Json.null,
            proxy_used := jgetD "proxy_used" data Json.null,
            filtered_content := jgetD "filtered_content" data Json.null,
            billing := some
              { total_credits := jgetD "total_credits" bd (Json.num 0),
                tier_used := jgetD "tier_used" bd (Json.str "1"),
                escalations := escs,
                savings := jgetD "savings" bd (Json.num 0),
                optimization_suggestion := jgetD "optimization_suggestion" bd Json.null,
                byop_applied := jgetD "byop_applied" bd (Json.bool false),
                byop_discount_percent := jgetD "byop_discount_percent" bd Json.null,
                original_cost_microcents := jgetD "original_cost_microcents" bd Json.null,
                final_cost_microcents := jgetD "final_cost_microcents" bd Json.null },
            extraction_method := jgetD "extraction_method" data (Json.str "algorithmic"),
            method_details := jgetD "method_details" data Json.null }
  | _ => .error "AttributeError"

/-- `JobStatus` dataclass (`client.py` lines 368-375).  `status` holds the
raw JSON value of the `status` member (defaulting to `"pending"` when
absent); `error` holds the raw `error` member (`null` when absent, as
Python `data.get` yields `None` for both). -/
structure JobStatus where
  job_id : String
  status : Json
  result : Option ScrapeResult := none
  error : Json := .null

/-- `AlterLab.get_job_status` (`client.py` lines 873-894) applied to the
parsed body of the job endpoint response: the embedded result is parsed
only when the raw status equals `"succeeded"` or `"completed"` and the
`result` member is truthy; a truthy non-dict `result` raises inside
`_parse_scrape_response`. -/
def get_job_status (jobId : String) (data : List (String × Json)) :
    Except String JobStatus :=
  if (jsonEqStr (jgetD "status" data Json.null) "succeeded"
      || jsonEqStr (jgetD "status" data Json.null) "completed")
     && pyTruthyOpt (jlookup "result" data) then
    match jlookup "result" data with
    | some (Json.obj kvs) =>
      match parse_scrape_response kvs with
      | .ok r =>
        .ok { job_id := jobId, status := jgetD "status" data (Json.str "pending"),
              result := some r, error := jgetD "error" data Json.null }
      | .error m => .error m
    | _ => .error "AttributeError"
  else
    .ok { job_id := jobId, status := jgetD "status" data (Json.str "pending"),
          result := none, error := jgetD "error" data Json.null }

/-- Result of one client call as the caller observes it: a returned
`ScrapeResult`, a raised SDK exception, a raised Python-level error
(`AttributeError` / `TypeError` from duck-typed access), or the loop
still running when the modelling fuel runs out. -/
inductive CallResult where
  | ok (r : ScrapeResult)
  | err (e : SdkError)
  | crash (msg : String)
  | outOfFuel

/-- Observable trace of a polling call: status requests issued, sleeps of
`poll_interval` taken, and the outcome. -/
structure PollTrace where
  statusRequests : Nat
  sleeps : Nat
  result : CallResult

/-- The message of the polling timeout error
(`f"Job \x7bjob_id\x7d did not complete within \x7bpoll_timeout\x7d seconds"`). -/
def timeoutMessage (jobId : String) (pollTimeout : ℚ) : String :=
  "Job " ++ jobId ++ " did not complete within " ++ toString pollTimeout ++ " seconds"

/-- The loop of `AlterLab.wait_for_job` (`client.py` lines 848-871).
`elapsed n` is the wall-clock elapsed time `time.time() - start_time`
observed at the top of iteration `n`; `polls n` is the parsed body served
to that iteration's `get_job_status` call.  Each iteration first checks
the timeout, then issues the status request, then branches on the raw
status value; any other status sleeps `poll_interval` and continues.
`fuel` only bounds the modelled unbounded `while True` loop. -/
def wait_for_job_go (jobId : String) (pollTimeout : ℚ)
    (elapsed : Nat → ℚ) (polls : Nat → List (String × Json)) (n : Nat) :
    Nat → PollTrace
  | 0 => ⟨0, 0, .outOfFuel⟩
  | fuel + 1 =>
    if pollTimeout < elapsed n then
      ⟨0, 0, .err (.timeoutError (timeoutMessage jobId pollTimeout))⟩
    else
      match get_job_status jobId (polls n) with
      | .error m => ⟨1, 0, .crash m⟩
      | .ok st =>
        if jsonEqStr st.status "succeeded" then
          match st.result with
          | some r => ⟨1, 0, .ok r⟩
          | none => ⟨1, 0, .err (.scrapeError 200
              (.str "Job completed but no result returned") none)⟩
        else if jsonEqStr st.status "failed" then
          ⟨1, 0, .err (.scrapeError 422
            (if pyTruthy st.error then st.error else .str "Job failed")
            (some "JOB_FAILED"))⟩
        else
          let t := wait_for_job_go jobId pollTimeout elapsed polls (n + 1) fuel
          ⟨t.statusRequests + 1, t.sleeps + 1, t.result⟩

/-- `AlterLab.wait_for_job`, entered at iteration 0. -/
def wait_for_job (jobId : String) (pollTimeout : ℚ) (elapsed : Nat → ℚ)
    (polls : Nat → List (String × Json)) (fuel : Nat) : PollTrace :=
  wait_for_job_go jobId pollTimeout elapsed polls 0 fuel

/-- The dispatch of `AlterLab.scrape` on the transport response
(`client.py` lines 805-826): `status` and `data` are the final response
status and parsed body; on `202` with a `job_id` member, a non-blocking
call returns the placeholder result carrying only the job id while a
blocking call polls via `wait_for_job`; every other response is parsed
synchronously. -/
def scrape_dispatch (url : String) (sync : Bool) (status : Nat)
    (data : List (String × Json)) (pollTimeout : ℚ) (elapsed : Nat → ℚ)
    (polls : Nat → List (String × Json)) (fuel : Nat) : PollTrace :=
  match status == 202, jlookup "job_id" data with
  | true, some jid =>
    if sync then
      wait_for_job jid.pyStr pollTimeout elapsed polls fuel
    else
      ⟨0, 0, .ok { url := Json.str url, status_code := Json.num 202,
                   content := Json.obj [("job_id", jid)],
                   metadata := Json.obj [("job_id", jid)] }⟩
  | _, _ =>
    match parse_scrape_response data with
    | .ok r => ⟨0, 0, .ok r⟩
    | .error m => ⟨0, 0, .crash m⟩

/-- Claim C1: with `max_retries = 3`, a mocked response sequence
`[503, 503, 200]` produces exactly two sleeps — the first of duration
`retry_delay * 1` and the second of duration `retry_delay * 2`, or the
`Retry-After` value when that header is present on the respective
response — and the call returns the `200` response. -/
theorem c1_transport_503_503_200 (d : ℚ) (attempts : Nat → AttemptOutcome)
    (r1 r2 r3 : Response)
    (h0 : attempts 0 = .httpResponse r1) (h1 : attempts 1 = .httpResponse r2)
    (h2 : attempts 2 = .httpResponse r3)
    (hs1 : r1.status = 503) (hs2 : r2.status = 503) (hs3 : r3.status = 200) :
    request_with_retry 3 d attempts =
      ⟨3,
       [(match r1.retryAfter with | some ra => (ra : ℚ) | none => d * 1),
        (match r2.retryAfter with | some ra => (ra : ℚ) | none => d * 2)],
       .ok r3⟩ := by
  unfold request_with_retry
  simp only [request_with_retry_go, h0, h1, h2, hs1, hs2, hs3, retrySleep]
  norm_num

/-- First 503 response of the C1 scenario, carrying a `Retry-After` header. -/
def c1Resp1 : Response := { status := 503, retryAfter := some 7 }

/-- Second 503 response of the C1 scenario, no `Retry-After` header. -/
def c1Resp2 : Response := { status := 503 }

/-- Final 200 response of the C1 scenario. -/
def c1Resp3 : Response := { status := 200 }

/-- Mocked attempt sequence `[503, 503, 200]`. -/
def c1Attempts : Nat → AttemptOutcome
  | 0 => .httpResponse c1Resp1
  | 1 => .httpResponse c1Resp2
  | _ => .httpResponse c1Resp3

/-- Witness for C1 at `retry_delay = 1`: sleeps `[7, 2]` (header value,
then backoff) and the 200 response returned. -/
theorem c1_transport_503_503_200_witness :
    request_with_retry 3 1 c1Attempts = ⟨3, [7, 2], .ok c1Resp3⟩ := by
  have h := c1_transport_503_503_200 1 c1Attempts c1Resp1 c1Resp2 c1Resp3
    rfl rfl rfl rfl rfl rfl
  simpa [c1Resp1, c1Resp2] using h

/-- Claim C8: a single response with status in `[400, 500)` other than 429
stops the transport immediately for every `max_retries`: exactly one
request, zero sleeps, the typed error from `_handle_error_response`
raised; a 401 yields the authentication error. -/
theorem c8_client_error_no_retry (m : Nat) (d : ℚ) (attempts : Nat → AttemptOutcome)
    (r : Response) (hm : 1 ≤ m) (h0 : attempts 0 = .httpResponse r)
    (h4 : 400 ≤ r.status) (h5 : r.status < 500) (h9 : r.status ≠ 429) :
    ∃ e, handle_error_response r = some e ∧
      request_with_retry m d attempts = ⟨1, [], .error e⟩ ∧
      (r.status = 401 → e = .authenticationError 401 r.detail) := by
  obtain ⟨k, rfl⟩ : ∃ k, m = k + 1 := ⟨m - 1, (Nat.succ_pred_eq_of_pos hm).symm⟩
  rcases he : handle_error_response r with - | e
  · exfalso
    unfold handle_error_response at he
    split_ifs at he <;> simp_all
  · refine ⟨e, rfl, ?_, ?_⟩
    · unfold request_with_retry
      simp only [request_with_retry_go, h0]
      rw [if_pos h4, if_pos ⟨h4, h5, h9⟩, he]
    · intro h401
      unfold handle_error_response at he
      rw [if_pos h401] at he
      exact (Option.some_inj.mp he).symm

/-- A mocked 401 response. -/
def c8Resp : Response := { status := 401, detail := "bad key" }

/-- Attempt sequence serving only the 401 response. -/
def c8Attempts : Nat → AttemptOutcome := fun _ => .httpResponse c8Resp

/-- Witness for C8 with `max_retries = 5`: one request, zero sleeps, the
authentication error. -/
theorem c8_client_error_no_retry_witness :
    request_with_retry 5 1 c8Attempts =
      ⟨1, [], .error (.authenticationError 401 "bad key")⟩ := by
  obtain ⟨e, he, ht, h401⟩ := c8_client_error_no_retry 5 1 c8Attempts c8Resp
    (by norm_num) rfl (by decide) (by decide) (by decide)
  rw [ht, h401 rfl]
  rfl

/-- A mocked 429 response with a `Retry-After` header. -/
def c2Resp : Response :=
  { status := 429, retryAfter := some 7, text := "rate limited", detail := "rate limited" }

/-- Attempt sequence answering 429 to every attempt. -/
def c2Attempts : Nat → AttemptOutcome := fun _ => .httpResponse c2Resp

/-- Claim C2 (code bug): when every attempt returns 429 the error raised
after exhaustion is the generic `AlterLabAPIError` built from the raw
body text — not the typed rate-limit error with the `Retry-After` hint
that `_handle_error_response` maps a 429 to, because the retry loop
excludes 429 from that handler, leaving `RateLimitError` unreachable
even though `scrape` documents raising it. -/
theorem c2_rate_limit_exhaustion_bug :
    request_with_retry 3 1 c2Attempts =
      ⟨3, [7, 7, 7], .error (.apiError 429 "rate limited")⟩ ∧
    handle_error_response c2Resp = some (.rateLimitError "rate limited" (some 7)) := by
  constructor
  · rfl
  · rfl

/-- Helper: over a window of attempts that all return an HTTP-retryable
status (429 or 5xx), every iteration of the retry loop sleeps — including
the last — and the loop ends raising an error. -/
theorem go_http_retryable_window (d : ℚ) (m : Nat) (attempts : Nat → AttemptOutcome) :
    ∀ (remaining attempt : Nat) (lerr : Option SdkError),
    (∀ i, attempt ≤ i → i < attempt + remaining →
      ∃ r, attempts i = .httpResponse r ∧ 400 ≤ r.status ∧
        (r.status = 429 ∨ 500 ≤ r.status)) →
    (request_with_retry_go d m attempts attempt lerr remaining).sleeps.length = remaining ∧
    (request_with_retry_go d m attempts attempt lerr remaining).requests = remaining ∧
    ∃ e, (request_with_retry_go d m attempts attempt lerr remaining).outcome = .error e := by
  intro remaining
  induction remaining with
  | zero =>
    intro attempt lerr _
    exact ⟨rfl, rfl, _, rfl⟩
  | succ k ih =>
    intro attempt lerr h
    obtain ⟨r, hr, h4, hcls⟩ := h attempt (Nat.le_refl attempt) (by omega)
    have hguard : (if 400 ≤ r.status ∧ r.status < 500 ∧ r.status ≠ 429
        then handle_error_response r else none) = none := by
      rcases hcls with h429 | h5xx
      · exact if_neg (by omega)
      · exact if_neg (by omega)
    have ihk := ih (attempt + 1) (some (.apiError r.status r.text))
      (fun i hi1 hi2 => h i (by omega) (by omega))
    simp only [request_with_retry_go, hr, if_pos h4, hguard]
    exact ⟨by simp [ihk.1], by simp [ihk.2.1], ihk.2.2⟩

/-- Helper: over a window of attempts that all fail at the network level,
every iteration except the last sleeps before continuing, and the loop
ends raising an error.  The invariant `attempt + remaining = m` reflects
the top-level call. -/
theorem go_network_window (d : ℚ) (m : Nat) (attempts : Nat → AttemptOutcome) :
    ∀ (remaining attempt : Nat) (lerr : Option SdkError),
    attempt + remaining = m →
    (∀ i, attempt ≤ i → i < m → ∃ msg, attempts i = .networkError msg) →
    (request_with_retry_go d m attempts attempt lerr remaining).sleeps.length = remaining - 1 ∧
    (request_with_retry_go d m attempts attempt lerr remaining).requests = remaining ∧
    ∃ e, (request_with_retry_go d m attempts attempt lerr remaining).outcome = .error e := by
  intro remaining
  induction remaining with
  | zero =>
    intro attempt lerr _ _
    exact ⟨rfl, rfl, _, rfl⟩
  | succ k ih =>
    intro attempt lerr hinv h
    obtain ⟨msg, hmsg⟩ := h attempt (Nat.le_refl attempt) (by omega)
    have ihk := ih (attempt + 1) (some (.alterLabError ("Network error: " ++ msg)))
      (by omega) (fun i hi1 hi2 => h i (by omega) hi2)
    rcases Nat.eq_zero_or_pos k with hk | hk
    · subst hk
      have hlast : ¬ attempt < m - 1 := by omega
      simp only [request_with_retry_go, hmsg, if_neg hlast]
      refine ⟨by simp, by simp, ?_⟩
      exact ⟨_, rfl⟩
    · have hmore : attempt < m - 1 := by omega
      simp only [request_with_retry_go, hmsg, if_pos hmore]
      refine ⟨?_, by simp [ihk.2.1], ihk.2.2⟩
      simp only [List.length_cons, ihk.1]
      omega

/-- Claim C10: when every one of the `max_retries` attempts fails with an
HTTP-retryable status (429 or 5xx) the transport sleeps exactly
`max_retries` times — once after every attempt including the last —
before raising the final error, whereas when every attempt fails with a
network-level error it sleeps only `max_retries - 1` times, the final
attempt raising without a trailing sleep. -/
theorem c10_sleep_counts (m : Nat) (d : ℚ) (attempts : Nat → AttemptOutcome)
    (hm : 1 ≤ m) :
    ((∀ i, i < m → ∃ r, attempts i = .httpResponse r ∧ 400 ≤ r.status ∧
        (r.status = 429 ∨ 500 ≤ r.status)) →
      (request_with_retry m d attempts).sleeps.length = m ∧
      ∃ e, (request_with_retry m d attempts).outcome = .error e) ∧
    ((∀ i, i < m → ∃ msg, attempts i = .networkError msg) →
      (request_with_retry m d attempts).sleeps.length = m - 1 ∧
      ∃ e, (request_with_retry m d attempts).outcome = .error e) := by
  constructor
  · intro h
    have hw := go_http_retryable_window d m attempts m 0 none
      (fun i hi1 hi2 => h i (by omega))
    exact ⟨hw.1, hw.2.2⟩
  · intro h
    have hw := go_network_window d m attempts m 0 none (by omega)
      (fun i hi1 hi2 => h i hi2)
    exact ⟨hw.1, hw.2.2⟩

/-- Attempt sequence answering 503 to every attempt. -/
def c10HttpAttempts : Nat → AttemptOutcome := fun _ => .httpResponse { status := 503 }

/-- Attempt sequence failing every attempt at the network level. -/
def c10NetAttempts : Nat → AttemptOutcome := fun _ => .networkError "connection reset"

/-- Witness for C10 at `max_retries = 3`: three sleeps when every attempt
is a 503, two sleeps when every attempt is a network failure, an error
raised in both cases. -/
theorem c10_sleep_counts_witness :
    ((request_with_retry 3 1 c10HttpAttempts).sleeps.length = 3 ∧
      ∃ e, (request_with_retry 3 1 c10HttpAttempts).outcome = .error e) ∧
    ((request_with_retry 3 1 c10NetAttempts).sleeps.length = 2 ∧
      ∃ e, (request_with_retry 3 1 c10NetAttempts).outcome = .error e) := by
  constructor
  · exact (c10_sleep_counts 3 1 c10HttpAttempts (by norm_num)).1
      (fun i hi => ⟨{ status := 503 }, rfl, by decide, Or.inr (by decide)⟩)
  · exact (c10_sleep_counts 3 1 c10NetAttempts (by norm_num)).2
      (fun i hi => ⟨"connection reset", rfl⟩)

/-- Claim C6: the wall-clock timeout is checked before each poll
iteration's network call — at any iteration whose observed elapsed time
exceeds `poll_timeout`, the poller issues zero further status requests
and raises the timeout error naming the job id and the configured
timeout. -/
theorem c6_timeout_before_poll (jobId : String) (pollTimeout : ℚ)
    (elapsed : Nat → ℚ) (polls : Nat → List (String × Json)) (n fuel : Nat)
    (hfuel : 1 ≤ fuel) (ht : pollTimeout < elapsed n) :
    wait_for_job_go jobId pollTimeout elapsed polls n fuel =
      ⟨0, 0, .err (.timeoutError (timeoutMessage jobId pollTimeout))⟩ := by
  obtain ⟨k, rfl⟩ : ∃ k, fuel = k + 1 := ⟨fuel - 1, (Nat.succ_pred_eq_of_pos hfuel).symm⟩
  simp only [wait_for_job_go, if_pos ht]

/-- Witness for C6: elapsed 301 against a 300-second timeout — no status
request, the timeout error raised. -/
theorem c6_timeout_before_poll_witness :
    wait_for_job "abc" 300 (fun _ => 301) (fun _ => []) 5 =
      ⟨0, 0, .err (.timeoutError (timeoutMessage "abc" 300))⟩ := by
  exact c6_timeout_before_poll "abc" 300 (fun _ => 301) (fun _ => []) 0 5
    (by norm_num) (by norm_num)

/-- Amended claim C7: when a poll iteration within the timeout observes
status `"succeeded"` with no (truthy) embedded result, `wait_for_job`
raises the scrape-failure error with message
`"Job completed but no result returned"` (capital J, as the code writes
it) and never returns a result. -/
theorem c7_succeeded_no_result_amended (jobId : String) (pollTimeout : ℚ)
    (elapsed : Nat → ℚ) (polls : Nat → List (String × Json)) (n fuel : Nat)
    (ht : ¬ pollTimeout < elapsed n)
    (hs : jlookup "status" (polls n) = some (Json.str "succeeded"))
    (hr : pyTruthyOpt (jlookup "result" (polls n)) = false) :
    wait_for_job_go jobId pollTimeout elapsed polls n (fuel + 1) =
      ⟨1, 0, .err (.scrapeError 200
        (.str "Job completed but no result returned") none)⟩ := by
  have hget : get_job_status jobId (polls n) =
      .ok { job_id := jobId, status := Json.str "succeeded", result := none,
            error := jgetD "error" (polls n) Json.null } := by
    unfold get_job_status
    simp [jgetD, hs, hr]
  simp only [wait_for_job_go, if_neg ht, hget]
  simp [jsonEqStr]

/-- Witness for C7: a succeeded status with no result member raises the
scrape-failure error. -/
theorem c7_succeeded_no_result_amended_witness :
    wait_for_job_go "abc" 300 (fun _ => 0)
      (fun _ => [("status", Json.str "succeeded")]) 0 3 =
      ⟨1, 0, .err (.scrapeError 200
        (.str "Job completed but no result returned") none)⟩ := by
  exact c7_succeeded_no_result_amended "abc" 300 (fun _ => 0)
    (fun _ => [("status", Json.str "succeeded")]) 0 2 (by norm_num) rfl rfl

/-- Counterexample to C7 as stated: at a concrete succeeded-without-result
poll, the message of the raised scrape-failure error is
`"Job completed but no result returned"`, which is not the claimed
string `"job completed but no result returned"`. -/
theorem c7_message_counterexample :
    wait_for_job "abc" 300 (fun _ => 0)
      (fun _ => [("status", Json.str "succeeded")]) 3 =
      ⟨1, 0, .err (.scrapeError 200
        (.str "Job completed but no result returned") none)⟩ ∧
    "Job completed but no result returned" ≠
      "job completed but no result returned" := by
  exact ⟨rfl, by decide⟩

/-- Counterexample to C5 as stated: for the payload with the unknown
status string `"mystery"`, `get_job_status` preserves the string
verbatim in the returned `JobStatus` — it does not yield the `"pending"`
state. -/
theorem c5_unknown_status_counterexample :
    get_job_status "job-1" [("status", Json.str "mystery")] =
      .ok { job_id := "job-1", status := Json.str "mystery", result := none,
            error := Json.null } ∧
    Json.str "mystery" ≠ Json.str "pending" := by
  exact ⟨rfl, by simp⟩

/-- Amended claim C5: an absent status member defaults to `"pending"` in
the returned `JobStatus`, while an unknown status string is preserved
verbatim; in either case the status is non-terminal for `wait_for_job`,
which continues polling (one more request, one more sleep, recursing to
the next iteration) rather than terminating. -/
theorem c5_unknown_status_amended :
    (∀ (jobId : String) (data : List (String × Json)),
      jlookup "status" data = none →
      get_job_status jobId data =
        .ok { job_id := jobId, status := Json.str "pending", result := none,
              error := jgetD "error" data Json.null }) ∧
    (∀ (jobId : String) (pollTimeout : ℚ) (elapsed : Nat → ℚ)
        (polls : Nat → List (String × Json)) (n fuel : Nat) (st : JobStatus),
      ¬ pollTimeout < elapsed n →
      get_job_status jobId (polls n) = .ok st →
      jsonEqStr st.status "succeeded" = false →
      jsonEqStr st.status "failed" = false →
      wait_for_job_go jobId pollTimeout elapsed polls n (fuel + 1) =
        ⟨(wait_for_job_go jobId pollTimeout elapsed polls (n + 1) fuel).statusRequests + 1,
         (wait_for_job_go jobId pollTimeout elapsed polls (n + 1) fuel).sleeps + 1,
         (wait_for_job_go jobId pollTimeout elapsed polls (n + 1) fuel).result⟩) := by
  constructor
  · intro jobId data h
    unfold get_job_status
    simp [jgetD, h, jsonEqStr]
  · intro jobId pollTimeout elapsed polls n fuel st ht hget hsu hfa
    simp only [wait_for_job_go, if_neg ht, hget, hsu, hfa]
    simp

/-- Witness for C5: an absent status yields `"pending"`; the unknown
status `"weird"` makes `wait_for_job` recurse into the next iteration. -/
theorem c5_unknown_status_amended_witness :
    get_job_status "j" [("other", Json.num 1)] =
      .ok { job_id := "j", status := Json.str "pending", result := none,
            error := Json.null } ∧
    wait_for_job_go "j" 300 (fun _ => 0)
        (fun _ => [("status", Json.str "weird")]) 0 1 =
      ⟨(wait_for_job_go "j" 300 (fun _ => 0)
          (fun _ => [("status", Json.str "weird")]) 1 0).statusRequests + 1,
       (wait_for_job_go "j" 300 (fun _ => 0)
          (fun _ => [("status", Json.str "weird")]) 1 0).sleeps + 1,
       (wait_for_job_go "j" 300 (fun _ => 0)
          (fun _ => [("status", Json.str "weird")]) 1 0).result⟩ := by
  constructor
  · exact c5_unknown_status_amended.1 "j" [("other", Json.num 1)] rfl
  · exact c5_unknown_status_amended.2 "j" 300 (fun _ => 0)
      (fun _ => [("status", Json.str "weird")]) 0 0 _ (by norm_num) rfl rfl rfl

/-- Claim C4: `scrape` with `sync = false` dispatching on a 202 response
carrying a `job_id` returns the placeholder `ScrapeResult` whose content
and metadata carry exactly the job id and whose every optional field
keeps its dataclass default (`billing = none`, empty artifacts), and the
call issues zero poll requests and performs zero sleeps. -/
theorem c4_async_placeholder (url : String) (data : List (String × Json))
    (jid : Json) (pollTimeout : ℚ) (elapsed : Nat → ℚ)
    (polls : Nat → List (String × Json)) (fuel : Nat)
    (hj : jlookup "job_id" data = some jid) :
    scrape_dispatch url false 202 data pollTimeout elapsed polls fuel =
      ⟨0, 0, .ok { url := Json.str url, status_code := Json.num 202,
                   content := Json.obj [("job_id", jid)],
                   metadata := Json.obj [("job_id", jid)] }⟩ := by
  simp only [scrape_dispatch, hj]
  rfl

/-- Witness for C4 at the mocked body of the spec scenario,
`\x7b"job_id": "abc"\x7d`. -/
theorem c4_async_placeholder_witness :
    scrape_dispatch "https://example.com" false 202 [("job_id", Json.str "abc")]
        300 (fun _ => 0) (fun _ => []) 9 =
      ⟨0, 0, .ok { url := Json.str "https://example.com",
                   status_code := Json.num 202,
                   content := Json.obj [("job_id", Json.str "abc")],
                   metadata := Json.obj [("job_id", Json.str "abc")] }⟩ := by
  exact c4_async_placeholder "https://example.com" [("job_id", Json.str "abc")]
    (Json.str "abc") 300 (fun _ => 0) (fun _ => []) 9 rfl

/-- Counterexample to C9 as stated: the parser does not map *any* JSON
payload without error — a payload whose `billing` member is not an
object raises `AttributeError` on `billing_data.get`. -/
theorem c9_any_payload_counterexample :
    parse_scrape_response [("billing", Json.num 5)] = .error "AttributeError" := rfl

/-- Helper: an escalations array whose elements are related, in order, to
the escalation records built from their members parses to exactly that
record list. -/
theorem parse_escalation_list_of_forall2 (es : List Json) (ts : List TierEscalation)
    (h : List.Forall₂ (fun e t => ∃ kvs, e = Json.obj kvs ∧
      t = { tier := jgetD "tier" kvs (Json.str "1"),
            result := jgetD "result" kvs (Json.str "success"),
            credits := jgetD "credits" kvs (Json.num 0),
            duration_ms := jgetD "duration_ms" kvs Json.null,
            error := jgetD "error" kvs Json.null }) es ts) :
    parse_escalation_list es = .ok ts := by
  induction h with
  | nil => rfl
  | cons h1 h2 ih =>
    obtain ⟨kvs, rfl, rfl⟩ := h1
    simp [parse_escalation_list, parse_escalation, ih]

/-- Amended claim C9: the parser maps any JSON object whose `billing`
member (when present) is an object and whose `escalations` member inside
it (when present) is an array of objects to a `ScrapeResult` without
error, reading every field through `data.get` with the documented
defaults (status 200, empty content, empty metadata and header maps,
zero counters, `"algorithmic"` extraction method, billing tier `"1"`);
the escalations array is mapped element-wise preserving source order,
with missing tier defaulting to `"1"`, missing result to `"success"` and
missing credits to `0`. -/
theorem c9_parser_defaults_amended (data bd : List (String × Json))
    (es : List Json) (ts : List TierEscalation)
    (hb : jgetD "billing" data (Json.obj []) = Json.obj bd)
    (he : jgetD "escalations" bd (Json.arr []) = Json.arr es)
    (hts : List.Forall₂ (fun e t => ∃ kvs, e = Json.obj kvs ∧
      t = { tier := jgetD "tier" kvs (Json.str "1"),
            result := jgetD "result" kvs (Json.str "success"),
            credits := jgetD "credits" kvs (Json.num 0),
            duration_ms := jgetD "duration_ms" kvs Json.null,
            error := jgetD "error" kvs Json.null }) es ts) :
    parse_scrape_response data =
      .ok { url := jgetD "url" data (Json.str ""),
            status_code := jgetD "status_code" data (Json.num 200),
            content := jgetD "content" data (Json.str ""),
            title := jgetD "title" data Json.null,
            author := jgetD "author" data Json.null,
            published_at := jgetD "published_at" data Json.null,
            metadata := jgetD "metadata" data (Json.obj []),
            headers := jgetD "headers" data (Json.obj []),
            cached := jgetD "cached" data (Json.bool false),
            cached_at := jgetD "cached_at" data Json.null,
            expires_at := jgetD "expires_at" data Json.null,
            response_time_ms := jgetD "response_time_ms" data (Json.num 0),
            size_bytes := jgetD "size_bytes" data (Json.num 0),
            raw_html := jgetD "raw_html" data Json.null,
            screenshot_url := jgetD "screenshot_url" data Json.null,
            pdf_url := jgetD "pdf_url" data Json.null,
            ocr_results := jgetD "ocr_results" data Json.null,
            proxy_used := jgetD "proxy_used" data Json.null,
            filtered_content := jgetD "filtered_content" data Json.null,
            billing := some
              { total_credits := jgetD "total_credits" bd (Json.num 0),
                tier_used := jgetD "tier_used" bd (Json.str "1"),
                escalations := ts,
                savings := jgetD "savings" bd (Json.num 0),
                optimization_suggestion := jgetD "optimization_suggestion" bd Json.null,
                byop_applied := jgetD "byop_applied" bd (Json.bool false),
                byop_discount_percent := jgetD "byop_discount_percent" bd Json.null,
                original_cost_microcents := jgetD "original_cost_microcents" bd Json.null,
                final_cost_microcents := jgetD "final_cost_microcents" bd Json.null },
            extraction_method := jgetD "extraction_method" data (Json.str "algorithmic"),
            method_details := jgetD "method_details" data Json.null } := by
  have hmap := parse_escalation_list_of_forall2 es ts hts
  unfold parse_scrape_response
  rw [hb]
  simp only [he, parse_escalations, hmap]

/-- Witness for C9: a payload missing every optional field parses to the
documented defaults, and a two-element escalations array maps
element-wise in order, missing members defaulting (`tier` to `"1"`,
`result` to `"success"`, `credits` to `0`). -/
theorem c9_parser_defaults_amended_witness :
    parse_scrape_response [] =
      .ok { url := Json.str "", status_code := Json.num 200,
            content := Json.str "",
            billing := some { total_credits := Json.num 0,
                              tier_used := Json.str "1" } } ∧
    parse_scrape_response
        [("billing", Json.obj [("escalations", Json.arr
          [Json.obj [], Json.obj [("tier", Json.str "3")]])])] =
      .ok { url := Json.str "", status_code := Json.num 200,
            content := Json.str "",
            billing := some { total_credits := Json.num 0,
                              tier_used := Json.str "1",
                              escalations :=
                                [{ tier := Json.str "1", result := Json.str "success",
                                   credits := Json.num 0 },
                                 { tier := Json.str "3", result := Json.str "success",
                                   credits := Json.num 0 }] } } := by
  constructor
  · exact c9_parser_defaults_amended [] [] [] [] rfl rfl List.Forall₂.nil
  · exact c9_parser_defaults_amended
      [("billing", Json.obj [("escalations", Json.arr
        [Json.obj [], Json.obj [("tier", Json.str "3")]])])]
      [("escalations", Json.arr [Json.obj [], Json.obj [("tier", Json.str "3")]])]
      [Json.obj [], Json.obj [("tier", Json.str "3")]]
      [{ tier := Json.str "1", result := Json.str "success", credits := Json.num 0 },
       { tier := Json.str "3", result := Json.str "success", credits := Json.num 0 }]
      rfl rfl
      (List.Forall₂.cons ⟨[], rfl, rfl⟩
        (List.Forall₂.cons ⟨[("tier", Json.str "3")], rfl, rfl⟩ List.Forall₂.nil))

/-- Options with a default advanced-options block, as in
`scrape(url, advanced=AdvancedOptions())`. -/
def c3Opts : ScrapeOptions := { advanced := some {} }

/-- Counterexample to C3 as stated: with an advanced-options block
included, the built payload contains null values — the block always
emits `proxy_integration_id` and `proxy_country`, `null` when unset. -/
theorem c3_payload_null_counterexample :
    Json.objNullFree (build_scrape_payload 120 "https://example.com" c3Opts) = false ∧
    jlookup "advanced" (build_scrape_payload 120 "https://example.com" c3Opts) =
      some (Json.obj
        [("render_js", Json.bool false), ("screenshot", Json.bool false),
         ("markdown", Json.bool false), ("generate_pdf", Json.bool false),
         ("ocr", Json.bool false), ("use_proxy", Json.bool false),
         ("use_own_proxy", Json.bool false), ("use_system_proxy", Json.bool false),
         ("proxy_integration_id", Json.null), ("proxy_country", Json.null),
         ("wait_condition", Json.str "networkidle"),
         ("remove_cookie_banners", Json.bool true)]) := by
  exact ⟨rfl, rfl⟩

/-- Helper: a cost-controls block never contains a null value. -/
theorem cost_controls_to_dict_nullFree (c : CostControls) :
    Json.nullFree c.to_dict = true := by
  rcases hx : c.max_tier with - | t
  · simp [CostControls.to_dict, hx, Json.nullFree, Json.objNullFree]
  · by_cases ht : t = "" <;>
      simp [CostControls.to_dict, hx, ht, Json.nullFree, Json.objNullFree]

/-- Helper: an array of strings contains no null. -/
theorem listNullFree_map_str (l : List String) :
    Json.listNullFree (l.map Json.str) = true := by
  induction l with
  | nil => rfl
  | cons x xs ih => simp [Json.listNullFree, Json.nullFree, ih]

/-- Amended claim C3: in the built payload, every key outside the
advanced-options block maps to a null-free value — absent or false
optional fields are omitted entirely, never emitted as null — while an
included advanced-options block contains nulls only at its
`proxy_integration_id` and `proxy_country` keys (always emitted, null
when unset).  Quantified over caller option combinations whose
extraction schema, a caller-supplied JSON object passed through
verbatim, is itself null-free. -/
theorem c3_payload_null_free_amended (selfTimeout : Int) (url : String)
    (o : ScrapeOptions)
    (hschema : ∀ kvs, o.extraction_schema = some kvs → Json.objNullFree kvs = true) :
    ∀ kv ∈ build_scrape_payload selfTimeout url o,
      Json.nullFree kv.2 = true ∨
      (kv.1 = "advanced" ∧ ∃ a, o.advanced = some a ∧ kv.2 = a.to_dict ∧
        ∀ l, a.to_dict = Json.obj l →
          ∀ kv2 ∈ l, kv2.2 = Json.null →
            kv2.1 = "proxy_integration_id" ∨ kv2.1 = "proxy_country") := by
  intro kv hkv
  unfold build_scrape_payload at hkv
  rcases List.mem_append.1 hkv with hkv | h
  swap
  · left
    by_cases hx : o.mode = "ocr"
    · rw [if_pos hx] at h
      rw [List.mem_singleton] at h
      subst h
      rfl
    · rw [if_neg hx] at h
      simp at h
  rcases List.mem_append.1 hkv with hkv | h
  swap
  · left
    by_cases hx : o.mode = "pdf"
    · rw [if_pos hx] at h
      rw [List.mem_singleton] at h
      subst h
      rfl
    · rw [if_neg hx] at h
      simp at h
  rcases List.mem_append.1 hkv with hkv | h
  swap
  · left
    rcases hx : o.enable_scroll with - | b
    · simp [hx] at h
    · simp [hx] at h
      subst h
      rfl
  rcases List.mem_append.1 hkv with hkv | h
  swap
  · left
    cases hx : o.screenshot
    · simp [hx] at h
    · simp [hx] at h
      subst h
      rfl
  rcases List.mem_append.1 hkv with hkv | h
  swap
  · left
    rcases hx : o.wait_for with - | s
    · simp [hx] at h
    · by_cases hs : s = ""
      · simp [hx, hs] at h
      · simp [hx, hs] at h
        subst h
        rfl
  rcases List.mem_append.1 hkv with hkv | h
  swap
  · left
    rcases hx : o.extraction_profile with - | s
    · simp [hx] at h
    · by_cases hs : s = ""
      · simp [hx, hs] at h
      · simp [hx, hs] at h
        subst h
        rfl
  rcases List.mem_append.1 hkv with hkv | h
  swap
  · left
    rcases hx : o.extraction_prompt with - | s
    · simp [hx] at h
    · by_cases hs : s = ""
      · simp [hx, hs] at h
      · simp [hx, hs] at h
        subst h
        rfl
  rcases List.mem_append.1 hkv with hkv | h
  swap
  · left
    rcases hx : o.extraction_schema with - | l
    · simp [hx] at h
    · rcases l with - | ⟨kv0, kvs⟩
      · simp [hx] at h
      · simp [hx] at h
        subst h
        simpa [Json.nullFree] using hschema (kv0 :: kvs) hx
  rcases List.mem_append.1 hkv with hkv | h
  swap
  · left
    rcases hx : o.formats with - | l
    · simp [hx] at h
    · rcases l with - | ⟨f, fs⟩
      · simp [hx] at h
      · simp [hx] at h
        subst h
        simpa [Json.nullFree] using listNullFree_map_str (f :: fs)
  rcases List.mem_append.1 hkv with hkv | h
  swap
  · left
    rcases hx : o.cost_controls with - | c
    · simp [hx] at h
    · simp [hx] at h
      subst h
      exact cost_controls_to_dict_nullFree c
  rcases List.mem_append.1 hkv with hkv | h
  swap
  · rcases hx : o.advanced with - | a
    · simp [hx] at h
    · simp [hx] at h
      subst h
      right
      refine ⟨rfl, a, rfl, rfl, ?_⟩
      intro l hl kv2 h2 hnull
      unfold AdvancedOptions.to_dict at hl
      injection hl with hl
      subst hl
      simp only [List.mem_cons, List.not_mem_nil, or_false] at h2
      rcases h2 with h2|h2|h2|h2|h2|h2|h2|h2|h2|h2|h2|h2 <;> subst h2 <;>
        first
        | exact Or.inl rfl
        | exact Or.inr rfl
        | exact absurd hnull (by simp)
  rcases List.mem_append.1 hkv with h | h
  · left
    simp only [List.mem_cons, List.not_mem_nil, or_false] at h
    rcases h with h|h|h|h|h|h|h|h|h|h <;> subst h <;> rfl
  · left
    rcases hx : o.cache_ttl with - | t
    · simp [hx] at h
    · simp [hx] at h
      subst h
      rfl

/-- Advanced options used by the C3 witness: JS rendering on, one proxy
field set, the other left unset. -/
def c3wAdv : AdvancedOptions := { render_js := true, proxy_country := some "US" }

/-- Options used by the C3 witness. -/
def c3wOpts : ScrapeOptions := { advanced := some c3wAdv }

/-- Witness for C3: the amended statement applied at a concrete option
combination and at the concrete `advanced` entry of the payload it
builds. -/
theorem c3_payload_null_free_amended_witness :
    Json.nullFree ("advanced", c3wAdv.to_dict).2 = true ∨
    (("advanced", c3wAdv.to_dict).1 = "advanced" ∧ ∃ a, c3wOpts.advanced = some a ∧
      ("advanced", c3wAdv.to_dict).2 = a.to_dict ∧
      ∀ l, a.to_dict = Json.obj l →
        ∀ kv2 ∈ l, kv2.2 = Json.null →
          kv2.1 = "proxy_integration_id" ∨ kv2.1 = "proxy_country") := by
  exact c3_payload_null_free_amended 120 "https://example.com" c3wOpts
    (by intro kvs hk; simp [c3wOpts] at hk)
    ("advanced", c3wAdv.to_dict)
    (by simp [build_scrape_payload, c3wOpts])
